import Mathlib

/-!
Verification of the AP Navigator route-planning front end.

The development shallowly embeds the computational core of the
application: the static location registry and its case-insensitive
substring search filter (`LocationSearch`), the synthetic route-point
generator, the Haversine distance and duration-label computation
(`AppSidebar.calculateRoute`), the swap operation (`swapLocations`),
and the page-level state wiring (`Index`).  Latitudes and longitudes
are modelled as real numbers; the trigonometric functions of the
source are `Real.sin`, `Real.cos`, `Real.arctan` together with an
explicit `atan2`; JavaScript `Math.floor` and `Math.round` on
nonnegative reals are `Int.floor` and `round`.
-/

/-- A named geographic point, as in the `Location` interface. -/
structure Location where
  name : String
  lat : ℝ
  lng : ℝ

/-- The static registry of suggested locations (`popularLocations`). -/
def popularLocations : List Location :=
  [⟨"Visakhapatnam", 17.6868, 83.2185⟩,
   ⟨"Vijayawada", 16.5062, 80.6480⟩,
   ⟨"Guntur", 16.3067, 80.4365⟩,
   ⟨"Tirupati", 13.6288, 79.4192⟩,
   ⟨"Rajahmundry", 17.0005, 81.8040⟩,
   ⟨"Kakinada", 16.9891, 82.2475⟩,
   ⟨"Nellore", 14.4426, 79.9865⟩,
   ⟨"Kurnool", 15.8281, 78.0373⟩,
   ⟨"Anantapur", 14.6819, 77.6006⟩,
   ⟨"Kadapa", 14.4674, 78.8241⟩,
   ⟨"Amaravati", 16.5131, 80.5167⟩,
   ⟨"Eluru", 16.7107, 81.0952⟩,
   ⟨"Ongole", 15.5057, 80.0499⟩,
   ⟨"Srikakulam", 18.2949, 83.8935⟩,
   ⟨"Chittoor", 13.2172, 79.1003⟩]

/-- Whether `n` occurs at the very start of `h` (helper for substring search). -/
def startsWithList : List Char → List Char → Bool
  | [], _ => true
  | _ :: _, [] => false
  | a :: as, b :: bs => a == b && startsWithList as bs

/-- Whether `n` occurs somewhere inside `h`, as JavaScript
`String.prototype.includes` does for the search filter. -/
def containsSub : List Char → List Char → Bool
  | n, [] => n.isEmpty
  | n, b :: bs => startsWithList n (b :: bs) || containsSub n bs

/-- The search filter of `LocationSearch`: registry entries whose
lowercased name contains the lowercased query as a substring
(`filteredLocations`). -/
def filteredLocations (query : String) : List Location :=
  popularLocations.filter fun loc =>
    containsSub (query.toList.map Char.toLower)
      (loc.name.toList.map Char.toLower)

/-- The dropdown-open flag set by `handleInputChange`:
`setIsOpen(newQuery.length > 0)`. -/
def isOpenAfterInput (q : String) : Bool :=
  decide (0 < q.length)

theorem startsWithList_iff (n h : List Char) :
    startsWithList n h = true ↔ ∃ s, n ++ s = h := by
  induction n generalizing h with
  | nil =>
    simp [startsWithList]
  | cons a as ih =>
    cases h with
    | nil => simp [startsWithList]
    | cons b bs =>
      simp only [startsWithList, Bool.and_eq_true, beq_iff_eq, ih,
        List.cons_append, List.cons.injEq]
      constructor
      · rintro ⟨rfl, s, rfl⟩
        exact ⟨s, rfl, rfl⟩
      · rintro ⟨s, rfl, rfl⟩
        exact ⟨rfl, s, rfl⟩

theorem containsSub_iff (n h : List Char) :
    containsSub n h = true ↔ ∃ p s, p ++ n ++ s = h := by
  induction h with
  | nil =>
    simp [containsSub, List.isEmpty_iff, List.append_eq_nil]
  | cons b bs ih =>
    simp only [containsSub, Bool.or_eq_true, startsWithList_iff, ih]
    constructor
    · rintro (⟨s, hs⟩ | ⟨p, s, hs⟩)
      · exact ⟨[], s, by simpa using hs⟩
      · exact ⟨b :: p, s, by simp [hs]⟩
    · rintro ⟨p, s, hs⟩
      cases p with
      | nil => exact Or.inl ⟨s, by simpa using hs⟩
      | cons x xs =>
        simp only [List.cons_append, List.cons.injEq] at hs
        exact Or.inr ⟨xs, s, hs.2⟩

theorem containsSub_nil_left (h : List Char) : containsSub [] h = true := by
  cases h <;> simp [containsSub, startsWithList]

/-- The interpolated route points of `calculateRoute`: for
`i = 0, …, 20` with `t = i / 20` (steps = 20), the point has
latitude `source.lat + (destination.lat - source.lat) * t + curve`
with `curve = sin(t * π) * 0.2`, and longitude
`source.lng + (destination.lng - source.lng) * t`. -/
noncomputable def calculateRoutePoints (source destination : Location) :
    List (ℝ × ℝ) :=
  (List.range 21).map fun (i : ℕ) =>
    (source.lat + (destination.lat - source.lat) * ((i : ℝ) / 20)
       + Real.sin (((i : ℝ) / 20) * Real.pi) * 0.2,
     source.lng + (destination.lng - source.lng) * ((i : ℝ) / 20))

/-- JavaScript `Math.atan2 y x`. -/
noncomputable def atan2 (y x : ℝ) : ℝ :=
  if 0 < x then Real.arctan (y / x)
  else if x < 0 ∧ 0 ≤ y then Real.arctan (y / x) + Real.pi
  else if x < 0 ∧ y < 0 then Real.arctan (y / x) - Real.pi
  else if x = 0 ∧ 0 < y then Real.pi / 2
  else if x = 0 ∧ y < 0 then -(Real.pi / 2)
  else 0

/-- The intermediate value `a` of the Haversine computation in
`calculateRoute`. -/
noncomputable def haversineA (source destination : Location) : ℝ :=
  Real.sin ((destination.lat - source.lat) * Real.pi / 180 / 2)
      * Real.sin ((destination.lat - source.lat) * Real.pi / 180 / 2)
    + Real.cos (source.lat * Real.pi / 180)
      * Real.cos (destination.lat * Real.pi / 180)
      * Real.sin ((destination.lng - source.lng) * Real.pi / 180 / 2)
      * Real.sin ((destination.lng - source.lng) * Real.pi / 180 / 2)

/-- The Haversine distance of `calculateRoute`:
`R * c` with `R = 6371` and `c = 2 * atan2 (√a) (√(1 - a))`. -/
noncomputable def haversineDistance (source destination : Location) : ℝ :=
  6371 * (2 * atan2 (Real.sqrt (haversineA source destination))
    (Real.sqrt (1 - haversineA source destination)))

/-- The duration label of `calculateRoute`: with
`durationHours = distance / 60`, `hours = Math.floor durationHours` and
`minutes = Math.round ((durationHours - hours) * 60)`, the label is
`"{hours}h {minutes}m"` when `hours > 0` and `"{minutes} min"`
otherwise. -/
noncomputable def durationLabel (distance : ℝ) : String :=
  if 0 < ⌊distance / 60⌋ then
    toString ⌊distance / 60⌋ ++ "h "
      ++ toString (round ((distance / 60 - (⌊distance / 60⌋ : ℝ)) * 60)) ++ "m"
  else
    toString (round ((distance / 60 - (⌊distance / 60⌋ : ℝ)) * 60)) ++ " min"

/-- JavaScript `Number.prototype.toFixed(1)` on a nonnegative number,
used for the `"{distance.toFixed(1)} km"` field of `routeInfo`. -/
noncomputable def toFixed1 (x : ℝ) : String :=
  toString (⌊10 * x + 1 / 2⌋ / 10) ++ "." ++ toString (⌊10 * x + 1 / 2⌋ % 10)

/-- The `routeInfo` record of `AppSidebar`. -/
structure RouteInfo where
  distance : String
  duration : String

/-- The combined application state relevant to route calculation:
`source` / `destination` / `route` of `Index`, and `routeInfo` /
`isCalculating` of `AppSidebar`. -/
structure AppState where
  source : Option Location
  destination : Option Location
  route : Option (List (ℝ × ℝ))
  routeInfo : Option RouteInfo
  isCalculating : Bool

/-- The `calculateRoute` handler as a state transition.  When source or
destination is absent it returns immediately (the state is unchanged);
otherwise it stores the route info and emits the route points to the
page state via `onRouteCalculate`. -/
noncomputable def calculateRoute (st : AppState) : AppState :=
  match st.source, st.destination with
  | some s, some d =>
      { st with
        routeInfo := some
          ⟨toFixed1 (haversineDistance s d) ++ " km",
           durationLabel (haversineDistance s d)⟩,
        route := some (calculateRoutePoints s d),
        isCalculating := false }
  | _, _ => st

/-- The `disabled` condition of the Calculate Route button:
`!source || !destination || isCalculating`. -/
def calcButtonDisabled (source destination : Option Location)
    (isCalculating : Bool) : Bool :=
  source.isNone || destination.isNone || isCalculating

/-- The `swapLocations` handler: swaps source and destination and
clears `routeInfo`; nothing else changes. -/
def swapLocations (st : AppState) : AppState :=
  { st with
    source := st.destination,
    destination := st.source,
    routeInfo := none }

/-- The Visakhapatnam registry entry. -/
def visakhapatnam : Location := ⟨"Visakhapatnam", 17.6868, 83.2185⟩

/-- The Vijayawada registry entry. -/
def vijayawada : Location := ⟨"Vijayawada", 16.5062, 80.6480⟩

/-- C2: for every query string `q`, the search filter applied to `q`
returns exactly those registry entries whose lowercased name contains
the lowercased query as a substring, and returns them in registry
order (as an ordered sublist of the registry). -/
theorem filteredLocations_spec (q : String) :
    (filteredLocations q).Sublist popularLocations ∧
    ∀ loc : Location,
      loc ∈ filteredLocations q ↔
        loc ∈ popularLocations ∧
          ∃ p s, p ++ q.toList.map Char.toLower ++ s
            = loc.name.toList.map Char.toLower := by
  constructor
  · exact List.filter_sublist popularLocations
  · intro loc
    rw [filteredLocations, List.mem_filter, containsSub_iff]

/-- C9: the search filter applied to the empty query returns the whole
registry unchanged (and in particular a nonempty result), while the
dropdown-open flag is `false` exactly because it requires a non-empty
query. -/
theorem filteredLocations_empty_query :
    filteredLocations "" = popularLocations ∧
    filteredLocations "" ≠ [] ∧
    isOpenAfterInput "" = false ∧
    ∀ q : String, isOpenAfterInput q = true ↔ 0 < q.length := by
  have hempty : (("".toList.map Char.toLower) : List Char) = [] := rfl
  have hfull : filteredLocations "" = popularLocations := by
    rw [filteredLocations]
    apply List.filter_eq_self.mpr
    intro a _
    rw [hempty]
    exact containsSub_nil_left _
  refine ⟨hfull, ?_, rfl, ?_⟩
  · rw [hfull, popularLocations]
    exact List.cons_ne_nil _ _
  · intro q
    simp [isOpenAfterInput]

/-- C8: swapping exchanges exactly the source and destination (twice
restores the original selection) and clears the route info, while the
page's route polyline state (and everything else) is untouched, so a
previously drawn route stays. -/
theorem swapLocations_spec (st : AppState) :
    (swapLocations st).source = st.destination ∧
    (swapLocations st).destination = st.source ∧
    (swapLocations (swapLocations st)).source = st.source ∧
    (swapLocations (swapLocations st)).destination = st.destination ∧
    (swapLocations st).routeInfo = none ∧
    (swapLocations st).route = st.route ∧
    (swapLocations st).isCalculating = st.isCalculating :=
  ⟨rfl, rfl, rfl, rfl, rfl, rfl, rfl⟩

/-- C7: when the source or the destination is absent, `calculateRoute`
is a silent no-op — the whole state (route points, route info,
everything) is left unchanged — and the Calculate Route button is
disabled. -/
theorem calculateRoute_noop (st : AppState)
    (h : st.source = none ∨ st.destination = none) :
    calculateRoute st = st ∧
    ∀ b : Bool, calcButtonDisabled st.source st.destination b = true := by
  obtain ⟨src, dst, rt, ri, ic⟩ := st
  rcases h with h | h <;> simp only at h <;> subst h
  · constructor
    · cases dst <;> rfl
    · intro b; rfl
  · constructor
    · cases src <;> rfl
    · intro b
      cases src <;> simp [calcButtonDisabled]

/-- C7 witness: with no source selected, `calculateRoute` leaves a
concrete state unchanged and the button is disabled. -/
theorem calculateRoute_noop_witness :
    calculateRoute ⟨none, some vijayawada, none, none, false⟩ =
        ⟨none, some vijayawada, none, none, false⟩ ∧
    calcButtonDisabled none (some vijayawada) false = true := by
  have h := calculateRoute_noop ⟨none, some vijayawada, none, none, false⟩
    (Or.inl rfl)
  exact ⟨h.1, h.2 false⟩

theorem routePoints_getD (s d : Location) (i : ℕ) (hi : i ≤ 20) :
    (calculateRoutePoints s d).getD i (0, 0) =
      (s.lat + (d.lat - s.lat) * ((i : ℝ) / 20)
         + Real.sin (((i : ℝ) / 20) * Real.pi) * 0.2,
       s.lng + (d.lng - s.lng) * ((i : ℝ) / 20)) := by
  have hi21 : i < 21 := Nat.lt_succ_of_le hi
  have hsome : (calculateRoutePoints s d)[i]? =
      some (s.lat + (d.lat - s.lat) * ((i : ℝ) / 20)
          + Real.sin (((i : ℝ) / 20) * Real.pi) * 0.2,
        s.lng + (d.lng - s.lng) * ((i : ℝ) / 20)) := by
    rw [calculateRoutePoints, List.getElem?_map,
      List.getElem?_range hi21, Option.map_some']
  rw [List.getD_eq_getElem?_getD, hsome, Option.getD_some]

theorem routePoints_length (s d : Location) :
    (calculateRoutePoints s d).length = 21 := by
  rw [calculateRoutePoints, List.length_map, List.length_range]

theorem routePoints_first (s d : Location) :
    (calculateRoutePoints s d).getD 0 (0, 0) = (s.lat, s.lng) := by
  rw [routePoints_getD s d 0 (by norm_num)]
  norm_num

theorem routePoints_last (s d : Location) :
    (calculateRoutePoints s d).getD 20 (0, 0) = (d.lat, d.lng) := by
  rw [routePoints_getD s d 20 (by norm_num)]
  have h1 : (((20 : ℕ) : ℝ) / 20) = 1 := by norm_num
  rw [h1, one_mul, Real.sin_pi, Prod.mk.injEq]
  constructor <;> ring

theorem haversineDistance_self (A : Location) : haversineDistance A A = 0 := by
  rw [haversineDistance, haversineA]
  simp only [sub_self, zero_mul, zero_div, Real.sin_zero, mul_zero,
    zero_add, add_zero]
  rw [Real.sqrt_zero, sub_zero, Real.sqrt_one, atan2]
  norm_num

/-- C1: the route generator always produces exactly 21 points; point
`i` (for `t = i / 20`) has latitude
`lerp(source.lat, destination.lat, t) + sin(t·π)·0.2` and longitude
`lerp(source.lng, destination.lng, t)`; the first point equals the
source and the last point equals the destination (the curve offset
vanishes at `t = 0` and `t = 1`). -/
theorem calculateRoutePoints_spec (s d : Location) :
    (calculateRoutePoints s d).length = 21 ∧
    (∀ i : ℕ, i ≤ 20 →
      (calculateRoutePoints s d).getD i (0, 0) =
        (s.lat + (d.lat - s.lat) * ((i : ℝ) / 20)
           + Real.sin (((i : ℝ) / 20) * Real.pi) * 0.2,
         s.lng + (d.lng - s.lng) * ((i : ℝ) / 20))) ∧
    (calculateRoutePoints s d).getD 0 (0, 0) = (s.lat, s.lng) ∧
    (calculateRoutePoints s d).getD 20 (0, 0) = (d.lat, d.lng) :=
  ⟨routePoints_length s d, routePoints_getD s d,
   routePoints_first s d, routePoints_last s d⟩

/-- C1 witness: for the Visakhapatnam → Vijayawada pair the route has
21 points, starts at the source, and point 10 follows the interpolation
formula. -/
theorem calculateRoutePoints_spec_witness :
    (calculateRoutePoints visakhapatnam vijayawada).length = 21 ∧
    (calculateRoutePoints visakhapatnam vijayawada).getD 0 (0, 0) =
      (visakhapatnam.lat, visakhapatnam.lng) ∧
    (calculateRoutePoints visakhapatnam vijayawada).getD 10 (0, 0) =
      (visakhapatnam.lat
         + (vijayawada.lat - visakhapatnam.lat) * (((10 : ℕ) : ℝ) / 20)
         + Real.sin ((((10 : ℕ) : ℝ) / 20) * Real.pi) * 0.2,
       visakhapatnam.lng
         + (vijayawada.lng - visakhapatnam.lng) * (((10 : ℕ) : ℝ) / 20)) := by
  obtain ⟨hlen, hget, hfirst, -⟩ :=
    calculateRoutePoints_spec visakhapatnam vijayawada
  exact ⟨hlen, hfirst, hget 10 (by norm_num)⟩

/-- C3 counterexample: for the degenerate route from Visakhapatnam to
itself, point 10 does not equal the endpoint coordinates — the curve
offset shifts its latitude by `sin(π/2)·0.2 = 0.2` — so the 21 points
are not all equal. -/
theorem degenerateRoute_not_constant :
    (calculateRoutePoints visakhapatnam visakhapatnam).getD 10 (0, 0) ≠
      (visakhapatnam.lat, visakhapatnam.lng) := by
  rw [routePoints_getD visakhapatnam visakhapatnam 10 (by norm_num)]
  have hhalf : ((((10 : ℕ) : ℝ)) / 20) * Real.pi = Real.pi / 2 := by
    push_cast
    ring
  rw [hhalf, Real.sin_pi_div_two]
  intro hcontra
  have hlat := congrArg Prod.fst hcontra
  simp only [visakhapatnam] at hlat
  norm_num at hlat

/-- C3 (amended): the degenerate route from a location to itself has 21
points, all sharing the shared longitude of the location, with latitudes following
the cosmetic bulge `A.lat + sin(t·π)·0.2`; the first and last points
equal the location exactly and the computed distance is 0. -/
theorem degenerateRoute_spec (A : Location) :
    (calculateRoutePoints A A).length = 21 ∧
    (∀ i : ℕ, i ≤ 20 →
      (calculateRoutePoints A A).getD i (0, 0) =
        (A.lat + Real.sin (((i : ℝ) / 20) * Real.pi) * 0.2, A.lng)) ∧
    (calculateRoutePoints A A).getD 0 (0, 0) = (A.lat, A.lng) ∧
    (calculateRoutePoints A A).getD 20 (0, 0) = (A.lat, A.lng) ∧
    haversineDistance A A = 0 := by
  refine ⟨routePoints_length A A, ?_, routePoints_first A A,
    routePoints_last A A, haversineDistance_self A⟩
  intro i hi
  rw [routePoints_getD A A i hi]
  norm_num

/-- C3 witness: the degenerate Visakhapatnam route evaluated at its
endpoints and at point 5. -/
theorem degenerateRoute_spec_witness :
    (calculateRoutePoints visakhapatnam visakhapatnam).length = 21 ∧
    (calculateRoutePoints visakhapatnam visakhapatnam).getD 5 (0, 0) =
      (visakhapatnam.lat + Real.sin ((((5 : ℕ) : ℝ) / 20) * Real.pi) * 0.2,
       visakhapatnam.lng) ∧
    haversineDistance visakhapatnam visakhapatnam = 0 := by
  obtain ⟨hlen, hget, -, -, hdist⟩ := degenerateRoute_spec visakhapatnam
  exact ⟨hlen, hget 5 (by norm_num), hdist⟩

/-- C6: the Haversine distance computation is symmetric in source and
destination. -/
theorem haversineDistance_symm (A B : Location) :
    haversineDistance A B = haversineDistance B A := by
  have ha : haversineA A B = haversineA B A := by
    rw [haversineA, haversineA,
      show (A.lat - B.lat) * Real.pi / 180 / 2 =
        -((B.lat - A.lat) * Real.pi / 180 / 2) by ring,
      show (A.lng - B.lng) * Real.pi / 180 / 2 =
        -((B.lng - A.lng) * Real.pi / 180 / 2) by ring,
      Real.sin_neg, Real.sin_neg]
    ring
  rw [haversineDistance, haversineDistance, ha]

/-- C5: the duration is `distance / 60` hours, formatted as
`"Hh Mm"` when it is at least one hour and `"M min"` otherwise, with
the minutes component rounded to the nearest integer; in particular
distance 30 gives `"30 min"` and distance 150 gives `"2h 30m"`. -/
theorem durationLabel_spec (d : ℝ) (h0 : 0 ≤ d) :
    (1 ≤ d / 60 →
      durationLabel d =
        toString ⌊d / 60⌋ ++ "h "
          ++ toString (round ((d / 60 - (⌊d / 60⌋ : ℝ)) * 60)) ++ "m") ∧
    (d / 60 < 1 → durationLabel d = toString (round d) ++ " min") ∧
    durationLabel 30 = "30 min" ∧
    durationLabel 150 = "2h 30m" := by
  refine ⟨?_, ?_, ?_, ?_⟩
  · intro h1
    have hpos : 0 < ⌊d / 60⌋ := by
      have hle : (1 : ℤ) ≤ ⌊d / 60⌋ := Int.le_floor.mpr (by exact_mod_cast h1)
      omega
    rw [durationLabel, if_pos hpos]
  · intro h1
    have hz : ⌊d / 60⌋ = 0 := by
      rw [Int.floor_eq_zero_iff]
      exact Set.mem_Ico.mpr ⟨by positivity, h1⟩
    rw [durationLabel, hz, if_neg (lt_irrefl (0 : ℤ)),
      show (d / 60 - ((0 : ℤ) : ℝ)) * 60 = d by push_cast; ring]
  · have hfl : ⌊(30 : ℝ) / 60⌋ = 0 := by
      rw [Int.floor_eq_zero_iff]
      exact Set.mem_Ico.mpr ⟨by norm_num, by norm_num⟩
    have hround : round (((30 : ℝ) / 60 - ((0 : ℤ) : ℝ)) * 60) = 30 := by
      rw [show ((30 : ℝ) / 60 - ((0 : ℤ) : ℝ)) * 60 = ((30 : ℤ) : ℝ) by
        push_cast; ring, round_intCast]
    rw [durationLabel, hfl, hround, if_neg (lt_irrefl (0 : ℤ))]
    rfl
  · have hfl : ⌊(150 : ℝ) / 60⌋ = 2 := by
      rw [Int.floor_eq_iff]
      constructor <;> norm_num
    have hround : round (((150 : ℝ) / 60 - ((2 : ℤ) : ℝ)) * 60) = 30 := by
      rw [show ((150 : ℝ) / 60 - ((2 : ℤ) : ℝ)) * 60 = ((30 : ℤ) : ℝ) by
        push_cast; ring, round_intCast]
    rw [durationLabel, hfl, hround, if_pos (by norm_num : (0 : ℤ) < 2)]
    rfl

/-- C5 witness: the formatting at the concrete distance 30. -/
theorem durationLabel_spec_witness :
    (0 : ℝ) ≤ 30 ∧ durationLabel (30 : ℝ) = "30 min" :=
  ⟨by norm_num, (durationLabel_spec 30 (by norm_num)).2.2.1⟩

/-- C10: for any distance `d` with `60·h + 59.5 ≤ d < 60·(h+1)` the
rounded minutes component equals 60, so the label reads `"60 min"`
when `h = 0` and `"Hh 60m"` when `h ≥ 1`, instead of rolling over to
the next hour. -/
theorem durationLabel_minutes_sixty (h : ℤ) (d : ℝ) (hh : 0 ≤ h)
    (h1 : 60 * (h : ℝ) + 59.5 ≤ d) (h2 : d < 60 * ((h : ℝ) + 1)) :
    round ((d / 60 - (⌊d / 60⌋ : ℝ)) * 60) = 60 ∧
    durationLabel d = if h = 0 then "60 min" else toString h ++ "h 60m" := by
  have hfl : ⌊d / 60⌋ = h := by
    rw [Int.floor_eq_iff]
    constructor
    · rw [le_div_iff₀ (by norm_num : (0 : ℝ) < 60)]
      linarith
    · rw [div_lt_iff₀ (by norm_num : (0 : ℝ) < 60)]
      linarith
  have hmin : round ((d / 60 - (h : ℝ)) * 60) = 60 := by
    rw [round_eq,
      show (d / 60 - (h : ℝ)) * 60 + 1 / 2 = d - 60 * (h : ℝ) + 1 / 2 by ring,
      Int.floor_eq_iff]
    constructor
    · push_cast
      linarith
    · push_cast
      linarith
  constructor
  · rw [hfl]
    exact hmin
  · rw [durationLabel, hfl, hmin]
    by_cases h0 : h = 0
    · subst h0
      rw [if_neg (lt_irrefl (0 : ℤ)), if_pos rfl]
      rfl
    · have hpos : 0 < h := lt_of_le_of_ne hh (Ne.symm h0)
      rw [if_pos hpos, if_neg h0, String.append_assoc, String.append_assoc]
      rfl

/-- C10 witness: distance 179.5 yields the label `"2h 60m"`. -/
theorem durationLabel_minutes_sixty_witness :
    durationLabel (179.5 : ℝ) = "2h 60m" := by
  have h := (durationLabel_minutes_sixty 2 179.5 (by norm_num) (by norm_num)
    (by norm_num)).2
  rw [if_neg (by norm_num : (2 : ℤ) ≠ 0)] at h
  exact h.trans rfl

/-- Two-sided Taylor enclosure of `Real.sin` on `[0, 1]`,
instantiated at rational interval endpoints. -/
theorem sin_bounds_of_mem {x xl xu : ℝ} (h1 : xl ≤ x) (h2 : x ≤ xu)
    (h3 : 0 ≤ xl) (h4 : xu ≤ 1) :
    xl - xu ^ 3 / 6 - xu ^ 4 * (5 / 96) ≤ Real.sin x ∧
    Real.sin x ≤ xu - xl ^ 3 / 6 + xu ^ 4 * (5 / 96) := by
  have hx0 : 0 ≤ x := le_trans h3 h1
  have hx : |x| ≤ 1 := by
    rw [abs_of_nonneg hx0]
    linarith
  have hb := Real.sin_bound hx
  rw [abs_of_nonneg hx0, abs_le] at hb
  have hx3 : x ^ 3 ≤ xu ^ 3 := pow_le_pow_left₀ hx0 h2 3
  have hx4 : x ^ 4 ≤ xu ^ 4 := pow_le_pow_left₀ hx0 h2 4
  have hl3 : xl ^ 3 ≤ x ^ 3 := pow_le_pow_left₀ h3 h1 3
  have hx40 : 0 ≤ x ^ 4 := by positivity
  exact ⟨by nlinarith [hb.1], by nlinarith [hb.2]⟩

/-- Two-sided Taylor enclosure of `Real.cos` on `[0, 1]`. -/
theorem cos_bounds_of_mem {x xl xu : ℝ} (h1 : xl ≤ x) (h2 : x ≤ xu)
    (h3 : 0 ≤ xl) (h4 : xu ≤ 1) :
    1 - xu ^ 2 / 2 - xu ^ 4 * (5 / 96) ≤ Real.cos x ∧
    Real.cos x ≤ 1 - xl ^ 2 / 2 + xu ^ 4 * (5 / 96) := by
  have hx0 : 0 ≤ x := le_trans h3 h1
  have hx : |x| ≤ 1 := by
    rw [abs_of_nonneg hx0]
    linarith
  have hb := Real.cos_bound hx
  rw [abs_of_nonneg hx0, abs_le] at hb
  have hx2 : x ^ 2 ≤ xu ^ 2 := pow_le_pow_left₀ hx0 h2 2
  have hx4 : x ^ 4 ≤ xu ^ 4 := pow_le_pow_left₀ hx0 h2 4
  have hl2 : xl ^ 2 ≤ x ^ 2 := pow_le_pow_left₀ h3 h1 2
  have hx40 : 0 ≤ x ^ 4 := by positivity
  exact ⟨by nlinarith [hb.1], by nlinarith [hb.2]⟩

/-- Product of two nonnegative interval enclosures. -/
theorem mul_mem_of_mem {x y xl xu yl yu : ℝ} (hxl : xl ≤ x) (hxu : x ≤ xu)
    (hyl : yl ≤ y) (hyu : y ≤ yu) (h0x : 0 ≤ xl) (h0y : 0 ≤ yl) :
    xl * yl ≤ x * y ∧ x * y ≤ xu * yu := by
  have h0x2 : 0 ≤ x := le_trans h0x hxl
  have h0y2 : 0 ≤ y := le_trans h0y hyl
  exact ⟨mul_le_mul hxl hyl h0y h0x2,
    mul_le_mul hxu hyu h0y2 (le_trans h0x2 hxu)⟩

/-- The Haversine intermediate value for Visakhapatnam → Vijayawada,
rewritten over positive angles. -/
theorem haversineA_viz_vja_eq :
    haversineA visakhapatnam vijayawada
      = Real.sin (1.1806 * Real.pi / 360) * Real.sin (1.1806 * Real.pi / 360)
        + Real.cos (17.6868 * Real.pi / 180) * Real.cos (16.5062 * Real.pi / 180)
          * (Real.sin (2.5705 * Real.pi / 360) * Real.sin (2.5705 * Real.pi / 360)) := by
  rw [haversineA]
  simp only [visakhapatnam, vijayawada]
  have e1 : (16.5062 - 17.6868 : ℝ) * Real.pi / 180 / 2 = -(1.1806 * Real.pi / 360) := by
    rw [show (16.5062 - 17.6868 : ℝ) = -1.1806 from by norm_num]
    ring
  have e2 : (80.6480 - 83.2185 : ℝ) * Real.pi / 180 / 2 = -(2.5705 * Real.pi / 360) := by
    rw [show (80.6480 - 83.2185 : ℝ) = -2.5705 from by norm_num]
    ring
  rw [e1, e2, Real.sin_neg, Real.sin_neg]
  ring

/-- Rational interval enclosure of the Haversine intermediate value for
Visakhapatnam → Vijayawada. -/
theorem haversineA_viz_vja_mem :
    (0.0005649825 : ℝ) ≤ haversineA visakhapatnam vijayawada ∧
    haversineA visakhapatnam vijayawada ≤ 0.0005658751 := by
  have hpl := Real.pi_gt_d6
  have hpu := Real.pi_lt_d6
  have ht1 := sin_bounds_of_mem
    (show (0.0103026 : ℝ) ≤ 1.1806 * Real.pi / 360 by linarith)
    (show 1.1806 * Real.pi / 360 ≤ (0.0103027 : ℝ) by linarith)
    (by norm_num) (by norm_num)
  have ht2 := sin_bounds_of_mem
    (show (0.0224318 : ℝ) ≤ 2.5705 * Real.pi / 360 by linarith)
    (show 2.5705 * Real.pi / 360 ≤ (0.0224319 : ℝ) by linarith)
    (by norm_num) (by norm_num)
  have hl1 := cos_bounds_of_mem
    (show (0.3086928 : ℝ) ≤ 17.6868 * Real.pi / 180 by linarith)
    (show 17.6868 * Real.pi / 180 ≤ (0.3086930 : ℝ) by linarith)
    (by norm_num) (by norm_num)
  have hl2 := cos_bounds_of_mem
    (show (0.2880874 : ℝ) ≤ 16.5062 * Real.pi / 180 by linarith)
    (show 16.5062 * Real.pi / 180 ≤ (0.2880876 : ℝ) by linarith)
    (by norm_num) (by norm_num)
  have hs1l : (0.0103024 : ℝ) ≤ Real.sin (1.1806 * Real.pi / 360) := by
    have hc : (0.0103024 : ℝ)
        ≤ 0.0103026 - 0.0103027 ^ 3 / 6 - 0.0103027 ^ 4 * (5 / 96) := by norm_num
    linarith [ht1.1]
  have hs1u : Real.sin (1.1806 * Real.pi / 360) ≤ (0.0103027 : ℝ) := by
    have hc : (0.0103027 : ℝ) - 0.0103026 ^ 3 / 6 + 0.0103027 ^ 4 * (5 / 96)
        ≤ 0.0103027 := by norm_num
    linarith [ht1.2]
  have hs2l : (0.0224298 : ℝ) ≤ Real.sin (2.5705 * Real.pi / 360) := by
    have hc : (0.0224298 : ℝ)
        ≤ 0.0224318 - 0.0224319 ^ 3 / 6 - 0.0224319 ^ 4 * (5 / 96) := by norm_num
    linarith [ht2.1]
  have hs2u : Real.sin (2.5705 * Real.pi / 360) ≤ (0.0224319 : ℝ) := by
    have hc : (0.0224319 : ℝ) - 0.0224318 ^ 3 / 6 + 0.0224319 ^ 4 * (5 / 96)
        ≤ 0.0224319 := by norm_num
    linarith [ht2.2]
  have hc1l : (0.9518813 : ℝ) ≤ Real.cos (17.6868 * Real.pi / 180) := by
    have hc : (0.9518813 : ℝ)
        ≤ 1 - 0.3086930 ^ 2 / 2 - 0.3086930 ^ 4 * (5 / 96) := by norm_num
    linarith [hl1.1]
  have hc1u : Real.cos (17.6868 * Real.pi / 180) ≤ (0.9528274 : ℝ) := by
    have hc : (1 : ℝ) - 0.3086928 ^ 2 / 2 + 0.3086930 ^ 4 * (5 / 96)
        ≤ 0.9528274 := by norm_num
    linarith [hl1.2]
  have hc2l : (0.9581437 : ℝ) ≤ Real.cos (16.5062 * Real.pi / 180) := by
    have hc : (0.9581437 : ℝ)
        ≤ 1 - 0.2880876 ^ 2 / 2 - 0.2880876 ^ 4 * (5 / 96) := by norm_num
    linarith [hl2.1]
  have hc2u : Real.cos (16.5062 * Real.pi / 180) ≤ (0.9588617 : ℝ) := by
    have hc : (1 : ℝ) - 0.2880874 ^ 2 / 2 + 0.2880876 ^ 4 * (5 / 96)
        ≤ 0.9588617 := by norm_num
    linarith [hl2.2]
  rw [haversineA_viz_vja_eq]
  obtain ⟨hA1, hA2⟩ := mul_mem_of_mem hs1l hs1u hs1l hs1u
    (by norm_num) (by norm_num)
  obtain ⟨hB1, hB2⟩ := mul_mem_of_mem hc1l hc1u hc2l hc2u
    (by norm_num) (by norm_num)
  obtain ⟨hC1, hC2⟩ := mul_mem_of_mem hs2l hs2u hs2l hs2u
    (by norm_num) (by norm_num)
  obtain ⟨hD1, hD2⟩ := mul_mem_of_mem hB1 hB2 hC1 hC2
    (by norm_num) (by norm_num)
  constructor
  · exact le_trans (by norm_num) (add_le_add hA1 hD1)
  · exact le_trans (add_le_add hA2 hD2) (by norm_num)

/-- Rational interval enclosure of the computed distance for
Visakhapatnam → Vijayawada: it lies strictly between 302.8 km and
303.3 km. -/
theorem haversineDistance_viz_vja_mem :
    (302.8 : ℝ) < haversineDistance visakhapatnam vijayawada ∧
    haversineDistance visakhapatnam vijayawada < 303.3 := by
  have hpl := Real.pi_gt_d6
  have hpu := Real.pi_lt_d6
  obtain ⟨hAl, hAu⟩ := haversineA_viz_vja_mem
  have hsa_l : (0.0237690 : ℝ)
      ≤ Real.sqrt (haversineA visakhapatnam vijayawada) := by
    have h1 : ((0.0237690 : ℝ)) ^ 2 ≤ haversineA visakhapatnam vijayawada := by
      have hc : ((0.0237690 : ℝ)) ^ 2 ≤ 0.0005649825 := by norm_num
      linarith
    calc (0.0237690 : ℝ) = Real.sqrt (((0.0237690 : ℝ)) ^ 2) :=
          (Real.sqrt_sq (by norm_num)).symm
      _ ≤ Real.sqrt (haversineA visakhapatnam vijayawada) :=
          Real.sqrt_le_sqrt h1
  have hsa_u : Real.sqrt (haversineA visakhapatnam vijayawada)
      ≤ 0.0237882 := by
    have h1 : haversineA visakhapatnam vijayawada ≤ ((0.0237882 : ℝ)) ^ 2 := by
      have hc : (0.0005658751 : ℝ) ≤ ((0.0237882 : ℝ)) ^ 2 := by norm_num
      linarith
    calc Real.sqrt (haversineA visakhapatnam vijayawada)
        ≤ Real.sqrt (((0.0237882 : ℝ)) ^ 2) := Real.sqrt_le_sqrt h1
      _ = 0.0237882 := Real.sqrt_sq (by norm_num)
  have hsb_l : (0.9997170 : ℝ)
      ≤ Real.sqrt (1 - haversineA visakhapatnam vijayawada) := by
    have h1 : ((0.9997170 : ℝ)) ^ 2
        ≤ 1 - haversineA visakhapatnam vijayawada := by
      have hc : ((0.9997170 : ℝ)) ^ 2 ≤ 1 - 0.0005658751 := by norm_num
      linarith
    calc (0.9997170 : ℝ) = Real.sqrt (((0.9997170 : ℝ)) ^ 2) :=
          (Real.sqrt_sq (by norm_num)).symm
      _ ≤ Real.sqrt (1 - haversineA visakhapatnam vijayawada) :=
          Real.sqrt_le_sqrt h1
  have hsb_u : Real.sqrt (1 - haversineA visakhapatnam vijayawada)
      ≤ 0.9997176 := by
    have h1 : 1 - haversineA visakhapatnam vijayawada
        ≤ ((0.9997176 : ℝ)) ^ 2 := by
      have hc : (1 : ℝ) - 0.0005649825 ≤ ((0.9997176 : ℝ)) ^ 2 := by norm_num
      linarith
    calc Real.sqrt (1 - haversineA visakhapatnam vijayawada)
        ≤ Real.sqrt (((0.9997176 : ℝ)) ^ 2) := Real.sqrt_le_sqrt h1
      _ = 0.9997176 := Real.sqrt_sq (by norm_num)
  have hsb_pos : (0 : ℝ)
      < Real.sqrt (1 - haversineA visakhapatnam vijayawada) :=
    lt_of_lt_of_le (by norm_num) hsb_l
  have hat : atan2 (Real.sqrt (haversineA visakhapatnam vijayawada))
      (Real.sqrt (1 - haversineA visakhapatnam vijayawada))
      = Real.arctan (Real.sqrt (haversineA visakhapatnam vijayawada)
          / Real.sqrt (1 - haversineA visakhapatnam vijayawada)) := by
    rw [atan2, if_pos hsb_pos]
  -- lower bound on the arctangent via tan 0.0237690
  obtain ⟨hswl_l, hswl_u⟩ := sin_bounds_of_mem
    (le_refl (0.0237690 : ℝ)) (le_refl (0.0237690 : ℝ))
    (by norm_num) (by norm_num)
  obtain ⟨hcwl_l, hcwl_u⟩ := cos_bounds_of_mem
    (le_refl (0.0237690 : ℝ)) (le_refl (0.0237690 : ℝ))
    (by norm_num) (by norm_num)
  have hcwl_pos : (0 : ℝ) < Real.cos 0.0237690 :=
    lt_of_lt_of_le (by norm_num) hcwl_l
  have htanl : Real.tan 0.0237690
      ≤ Real.sqrt (haversineA visakhapatnam vijayawada)
        / Real.sqrt (1 - haversineA visakhapatnam vijayawada) := by
    rw [Real.tan_eq_sin_div_cos]
    have h1 : Real.sin 0.0237690 / Real.cos 0.0237690
        ≤ (0.0237690 - 0.0237690 ^ 3 / 6 + 0.0237690 ^ 4 * (5 / 96))
          / (1 - 0.0237690 ^ 2 / 2 - 0.0237690 ^ 4 * (5 / 96)) :=
      div_le_div₀ (by norm_num) hswl_u (by norm_num) hcwl_l
    have h2 : (0.0237690 - 0.0237690 ^ 3 / 6 + 0.0237690 ^ 4 * (5 / 96))
        / (1 - 0.0237690 ^ 2 / 2 - 0.0237690 ^ 4 * (5 / 96))
        ≤ (0.0237690 : ℝ) / 0.9997176 := by
      rw [div_le_div_iff₀ (by norm_num) (by norm_num)]
      norm_num
    have h3 : (0.0237690 : ℝ) / 0.9997176
        ≤ Real.sqrt (haversineA visakhapatnam vijayawada)
          / Real.sqrt (1 - haversineA visakhapatnam vijayawada) :=
      div_le_div₀ (Real.sqrt_nonneg _) hsa_l hsb_pos hsb_u
    linarith
  have harc_l : (0.0237690 : ℝ)
      ≤ Real.arctan (Real.sqrt (haversineA visakhapatnam vijayawada)
          / Real.sqrt (1 - haversineA visakhapatnam vijayawada)) := by
    have hmono := Real.arctan_strictMono.monotone htanl
    rwa [Real.arctan_tan (by linarith) (by linarith)] at hmono
  -- upper bound on the arctangent via tan 0.0237958
  obtain ⟨hswu_l, hswu_u⟩ := sin_bounds_of_mem
    (le_refl (0.0237958 : ℝ)) (le_refl (0.0237958 : ℝ))
    (by norm_num) (by norm_num)
  obtain ⟨hcwu_l, hcwu_u⟩ := cos_bounds_of_mem
    (le_refl (0.0237958 : ℝ)) (le_refl (0.0237958 : ℝ))
    (by norm_num) (by norm_num)
  have hcwu_pos : (0 : ℝ) < Real.cos 0.0237958 :=
    lt_of_lt_of_le (by norm_num) hcwu_l
  have htanu : Real.sqrt (haversineA visakhapatnam vijayawada)
        / Real.sqrt (1 - haversineA visakhapatnam vijayawada)
      ≤ Real.tan 0.0237958 := by
    rw [Real.tan_eq_sin_div_cos]
    have h1 : Real.sqrt (haversineA visakhapatnam vijayawada)
          / Real.sqrt (1 - haversineA visakhapatnam vijayawada)
        ≤ (0.0237882 : ℝ) / 0.9997170 :=
      div_le_div₀ (by norm_num) hsa_u (by norm_num) hsb_l
    have h2 : (0.0237882 : ℝ) / 0.9997170
        ≤ (0.0237958 - 0.0237958 ^ 3 / 6 - 0.0237958 ^ 4 * (5 / 96))
          / (1 - 0.0237958 ^ 2 / 2 + 0.0237958 ^ 4 * (5 / 96)) := by
      rw [div_le_div_iff₀ (by norm_num) (by norm_num)]
      norm_num
    have h3 : (0.0237958 - 0.0237958 ^ 3 / 6 - 0.0237958 ^ 4 * (5 / 96))
          / (1 - 0.0237958 ^ 2 / 2 + 0.0237958 ^ 4 * (5 / 96))
        ≤ Real.sin 0.0237958 / Real.cos 0.0237958 := by
      have hs0 : (0 : ℝ) ≤ Real.sin 0.0237958 := by
        have hc : (0 : ℝ)
            ≤ 0.0237958 - 0.0237958 ^ 3 / 6 - 0.0237958 ^ 4 * (5 / 96) := by
          norm_num
        linarith
      exact div_le_div₀ hs0 hswu_l hcwu_pos hcwu_u
    linarith
  have harc_u : Real.arctan (Real.sqrt (haversineA visakhapatnam vijayawada)
          / Real.sqrt (1 - haversineA visakhapatnam vijayawada))
      ≤ 0.0237958 := by
    have hmono := Real.arctan_strictMono.monotone htanu
    rwa [Real.arctan_tan (by linarith) (by linarith)] at hmono
  rw [haversineDistance, hat]
  constructor
  · linarith
  · linarith

/-- The duration label derived from the Visakhapatnam → Vijayawada
distance: 302.8 < d < 303.3 gives hours = 5 and minutes = 3. -/
theorem haversineDistance_viz_vja_label :
    durationLabel (haversineDistance visakhapatnam vijayawada) = "5h 3m" := by
  obtain ⟨hdl, hdu⟩ := haversineDistance_viz_vja_mem
  have hfl : ⌊haversineDistance visakhapatnam vijayawada / 60⌋ = 5 := by
    rw [Int.floor_eq_iff]
    constructor
    · rw [show (((5 : ℤ) : ℝ)) = 5 by norm_num,
        le_div_iff₀ (by norm_num : (0 : ℝ) < 60)]
      linarith
    · rw [div_lt_iff₀ (by norm_num : (0 : ℝ) < 60)]
      push_cast
      linarith
  have hmin : round ((haversineDistance visakhapatnam vijayawada / 60
      - ((5 : ℤ) : ℝ)) * 60) = 3 := by
    rw [round_eq,
      show (haversineDistance visakhapatnam vijayawada / 60
          - ((5 : ℤ) : ℝ)) * 60 + 1 / 2
        = haversineDistance visakhapatnam vijayawada - 300 + 1 / 2 by
        push_cast; ring,
      Int.floor_eq_iff]
    constructor
    · push_cast
      linarith
    · push_cast
      linarith
  rw [durationLabel, hfl, hmin, if_pos (by norm_num : (0 : ℤ) < 5)]
  rfl

/-- C4 counterexample: the computed distance for the
Visakhapatnam → Vijayawada pair exceeds 300 km — nowhere near the
claimed ≈291 km — and the duration label is not `"4h 51m"`. -/
theorem haversine_viz_vja_not_291 :
    (300 : ℝ) < haversineDistance visakhapatnam vijayawada ∧
    durationLabel (haversineDistance visakhapatnam vijayawada)
      ≠ "4h 51m" := by
  refine ⟨by linarith [haversineDistance_viz_vja_mem.1], ?_⟩
  rw [haversineDistance_viz_vja_label]
  decide

/-- C4 (amended): for source Visakhapatnam (17.6868, 83.2185) and
destination Vijayawada (16.5062, 80.6480) the Haversine computation
with Earth radius 6371 km yields a distance strictly between 302.8 km
and 303.3 km (≈303 km), and the derived duration label is `"5h 3m"`. -/
theorem haversine_viz_vja_spec :
    (302.8 : ℝ) < haversineDistance visakhapatnam vijayawada ∧
    haversineDistance visakhapatnam vijayawada < 303.3 ∧
    durationLabel (haversineDistance visakhapatnam vijayawada)
      = "5h 3m" :=
  ⟨haversineDistance_viz_vja_mem.1, haversineDistance_viz_vja_mem.2,
   haversineDistance_viz_vja_label⟩
